import Mathlib

/-!
Shallow embedding of the filterx function-call resolution and argument-binding
layer (expr-function.c): the `FilterXFunctionArgs` container, its retrieval and
validation API, the simple-callable evaluation protocol, and the two-tier name
resolution chain.  Stateful C code (the one-shot `retrieved` flags, the GError
out-parameter) is embedded by explicit state passing; resource releases and
assertion aborts that the claims talk about are made observable through
instrumented result records.
-/

set_option autoImplicit false

namespace FilterXSpec

/-- Modelled from the spec: the tagged scalar (`GenericNumber` of the host
library, external to the excerpted core) — integer, floating-point, or
not-a-number.  Doubles are represented by rationals; only the kind tag is
inspected by the code under verification. -/
inductive GenericNumber where
  | int64 (v : Int)
  | double (v : Rat)
  | nan
deriving DecidableEq, Repr

/-- Modelled from the spec: `gn_set_nan` of the host library produces the
not-a-number payload. -/
def gn_set_nan : GenericNumber := .nan

/-- Modelled from the spec: `gn_as_int64` reads the integer payload; it is only
invoked after the kind tag has been checked to be `GN_INT64`. -/
def gn_as_int64 : GenericNumber → Int
  | .int64 v => v
  | _ => 0

/-- Modelled from the spec: `gn_as_double` reads the floating-point payload; it
is only invoked after the kind tag has been checked to be `GN_DOUBLE`. -/
def gn_as_double : GenericNumber → Rat
  | .double v => v
  | _ => 0

/-- Modelled from the spec: runtime values of the expression-evaluation engine
(`FilterXObject`).  The core only distinguishes strings, primitive scalars,
the null object and everything else. -/
inductive FilterXObject where
  | str (s : String)
  | primitive (v : GenericNumber)
  | null
  | other
deriving DecidableEq, Repr

/-- Modelled from the spec: an argument expression of the evaluation engine,
seen through the only two operations the core consumes — the literal predicate
and evaluation (which may fail, yielding `none`). -/
structure FilterXExpr where
  is_literal : Bool
  eval_result : Option FilterXObject
deriving DecidableEq, Repr

/-- Modelled from the spec: `filterx_expr_is_literal` — true iff the expression
is a compile-time constant. -/
def filterx_expr_is_literal (e : FilterXExpr) : Bool := e.is_literal

/-- Modelled from the spec: `filterx_expr_eval` — evaluate an expression to a
runtime value or fail. -/
def filterx_expr_eval (e : FilterXExpr) : Option FilterXObject := e.eval_result

/-- Modelled from the spec: `filterx_string_get_value` returns the character
data and length of a string-typed value, or NULL for any other type. -/
def filterx_string_get_value : FilterXObject → Option (String × Nat)
  | .str s => some (s, s.length)
  | _ => none

/-- Modelled from the spec: the `filterx_object_is_type(obj, null)` check. -/
def filterx_object_is_type_null : FilterXObject → Bool
  | .null => true
  | _ => false

/-- Modelled from the spec: the `filterx_object_is_type(obj, primitive)` check. -/
def filterx_object_is_type_primitive : FilterXObject → Bool
  | .primitive _ => true
  | _ => false

/-- Modelled from the spec: `filterx_primitive_get_value` reads the
`GenericNumber` payload of a primitive value; only invoked after the
primitive type check. -/
def filterx_primitive_get_value : FilterXObject → GenericNumber
  | .primitive v => v
  | _ => .nan

/-- A convenient constructor for a literal expression whose evaluation yields
the given object. -/
def literalExpr (o : FilterXObject) : FilterXExpr := ⟨true, some o⟩

/-- One call argument (`FilterXFunctionArg`): optional name, owned expression,
one-shot retrieval flag. -/
structure FilterXFunctionArg where
  name : Option String
  value : FilterXExpr
  retrieved : Bool
deriving DecidableEq, Repr

/-- `filterx_function_arg_new`: a fresh argument starts unretrieved. -/
def filterx_function_arg_new (name : Option String) (value : FilterXExpr) : FilterXFunctionArg :=
  ⟨name, value, false⟩

/-- The argument container (`FilterXFunctionArgs`): ordered positional
arguments plus a name-keyed table of named arguments.  The GHashTable is
embedded as an association list with key-unique insert semantics. -/
structure FilterXFunctionArgs where
  positional_args : List FilterXFunctionArg
  named_args : List (String × FilterXFunctionArg)
deriving DecidableEq, Repr

/-- Association-list lookup, the embedding of `g_hash_table_lookup`. -/
def lookupName {α : Type} : List (String × α) → String → Option α
  | [], _ => none
  | (k, v) :: rest, key => if k = key then some v else lookupName rest key

/-- The embedding of `g_hash_table_insert`: replaces the value bound to an
existing key (returning the displaced old value, which the hash table releases
at that moment) or appends a fresh binding. -/
def htInsertTrack (m : List (String × FilterXFunctionArg)) (k : String)
    (v : FilterXFunctionArg) : List (String × FilterXFunctionArg) × Option FilterXFunctionArg :=
  match m with
  | [] => ([(k, v)], none)
  | (k', v') :: rest =>
    if k' = k then ((k', v) :: rest, some v')
    else ((k', v') :: (htInsertTrack rest k v).1, (htInsertTrack rest k v).2)

/-- Error codes of the `filterx-function-error-quark` domain. -/
inductive FilterXFunctionError where
  | ctorFail
  | unexpectedArgs
  | functionNotFound
deriving DecidableEq, Repr

/-- A `GError` as used by this layer: an error code of the filterx function
domain plus a formatted message. -/
structure GError where
  code : FilterXFunctionError
  message : String
deriving DecidableEq, Repr

/-- Instrumented outcome of `filterx_function_args_new`: the container or the
construction error, the arguments whose expression reference was released
before the call returned (on failure, everything already consumed; on success,
only named duplicates displaced by `g_hash_table_insert`), and whether the raw
`GList` was freed. -/
structure ArgsNewResult where
  result : Except GError FilterXFunctionArgs
  released : List FilterXFunctionArg
  raw_list_freed : Bool
deriving Repr

/-- The construction loop of `filterx_function_args_new`: positional arguments
are appended in order until a named one is seen; a positional argument after a
named one aborts with the construction error, releasing everything already
consumed into the container. -/
def args_new_loop (elems : List FilterXFunctionArg) (has_named : Bool)
    (pos : List FilterXFunctionArg) (named : List (String × FilterXFunctionArg))
    (released : List FilterXFunctionArg) : ArgsNewResult :=
  match elems with
  | [] => ⟨.ok ⟨pos, named⟩, released, true⟩
  | arg :: rest =>
    match arg.name with
    | none =>
      if has_named then
        ⟨.error ⟨.ctorFail, "cannot set positional argument after a named argument"⟩,
          released ++ pos ++ named.map (fun p => p.2), true⟩
      else
        args_new_loop rest has_named (pos ++ [arg]) named released
    | some n =>
      args_new_loop rest true pos (htInsertTrack named n arg).1
        (released ++ (htInsertTrack named n arg).2.toList)

/-- `filterx_function_args_new` with release instrumentation. -/
def filterx_function_args_new_full (args : List FilterXFunctionArg) : ArgsNewResult :=
  args_new_loop args false [] [] []

/-- `filterx_function_args_new`: build a container from the raw argument list
or fail with a construction error. -/
def filterx_function_args_new (args : List FilterXFunctionArg) :
    Except GError FilterXFunctionArgs :=
  (filterx_function_args_new_full args).result

/-- `filterx_function_args_len`: the number of positional arguments. -/
def filterx_function_args_len (self : FilterXFunctionArgs) : Nat :=
  self.positional_args.length

/-- `filterx_function_args_empty`: no positional and no named arguments. -/
def filterx_function_args_empty (self : FilterXFunctionArgs) : Bool :=
  self.positional_args.length == 0 && self.named_args.length == 0

/-- Mark the positional argument at the given index retrieved (the
`arg->retrieved = TRUE` mutation of `filterx_function_args_get_expr`). -/
def markRetrievedAt : List FilterXFunctionArg → Nat → List FilterXFunctionArg
  | [], _ => []
  | a :: rest, 0 => { a with retrieved := true } :: rest
  | a :: rest, n + 1 => a :: markRetrievedAt rest n

/-- Mark the named argument bound to the given key retrieved (the
`arg->retrieved = TRUE` mutation of `filterx_function_args_get_named_expr`). -/
def htMarkRetrieved (m : List (String × FilterXFunctionArg)) (k : String) :
    List (String × FilterXFunctionArg) :=
  m.map fun p => if p.1 = k then (p.1, { p.2 with retrieved := true }) else p

/-- `filterx_function_args_get_expr`: out-of-bounds index yields NULL; in
bounds, the argument is marked retrieved and a new reference to its expression
is returned.  The updated container is the second component. -/
def filterx_function_args_get_expr (self : FilterXFunctionArgs) (index : Nat) :
    Option FilterXExpr × FilterXFunctionArgs :=
  if self.positional_args.length ≤ index then (none, self)
  else
    match self.positional_args[index]? with
    | none => (none, self)
    | some arg =>
      (some arg.value, { self with positional_args := markRetrievedAt self.positional_args index })

/-- `filterx_function_args_get_object`: fetch the expression (marking it
retrieved), then evaluate it; an evaluation failure propagates as NULL. -/
def filterx_function_args_get_object (self : FilterXFunctionArgs) (index : Nat) :
    Option FilterXObject × FilterXFunctionArgs :=
  let (expr, self') := filterx_function_args_get_expr self index
  match expr with
  | none => (none, self')
  | some e => (filterx_expr_eval e, self')

/-- `_get_literal_string_from_expr` with instrumentation: the first component
is the returned string view, the second records whether `filterx_expr_eval`
was reached (the non-literal path jumps to the error exit before evaluating). -/
def get_literal_string_from_expr_full (expr : FilterXExpr) :
    Option (String × Nat) × Bool :=
  if filterx_expr_is_literal expr then
    match filterx_expr_eval expr with
    | none => (none, true)
    | some obj => (filterx_string_get_value obj, true)
  else (none, false)

/-- `_get_literal_string_from_expr`: a string view only when the expression is
a literal that evaluates to a string-typed value. -/
def get_literal_string_from_expr (expr : FilterXExpr) : Option (String × Nat) :=
  (get_literal_string_from_expr_full expr).1

/-- `filterx_function_args_get_literal_string` with instrumentation (result,
whether the argument expression was evaluated, updated container). -/
def filterx_function_args_get_literal_string_full (self : FilterXFunctionArgs)
    (index : Nat) : Option (String × Nat) × Bool × FilterXFunctionArgs :=
  let (expr, self') := filterx_function_args_get_expr self index
  match expr with
  | none => (none, false, self')
  | some e =>
    let (r, evaluated) := get_literal_string_from_expr_full e
    (r, evaluated, self')

/-- `filterx_function_args_get_literal_string`. -/
def filterx_function_args_get_literal_string (self : FilterXFunctionArgs)
    (index : Nat) : Option (String × Nat) × FilterXFunctionArgs :=
  let (r, _, self') := filterx_function_args_get_literal_string_full self index
  (r, self')

/-- `filterx_function_args_is_literal_null`: true only when the positional
argument exists, is a literal, evaluates successfully, and the value is the
null object. -/
def filterx_function_args_is_literal_null (self : FilterXFunctionArgs) (index : Nat) :
    Bool × FilterXFunctionArgs :=
  let (expr, self') := filterx_function_args_get_expr self index
  match expr with
  | none => (false, self')
  | some e =>
    if filterx_expr_is_literal e then
      match filterx_expr_eval e with
      | none => (false, self')
      | some obj => (filterx_object_is_type_null obj, self')
    else (false, self')

/-- `filterx_function_args_get_named_expr`: look the name up in the named
table; when present, mark it retrieved and return its expression. -/
def filterx_function_args_get_named_expr (self : FilterXFunctionArgs) (name : String) :
    Option FilterXExpr × FilterXFunctionArgs :=
  match lookupName self.named_args name with
  | none => (none, self)
  | some arg =>
    (some arg.value, { self with named_args := htMarkRetrieved self.named_args name })

/-- `filterx_function_args_get_named_object`: result, the `exists` out
parameter, and the updated container. -/
def filterx_function_args_get_named_object (self : FilterXFunctionArgs) (name : String) :
    Option FilterXObject × Bool × FilterXFunctionArgs :=
  let (expr, self') := filterx_function_args_get_named_expr self name
  match expr with
  | none => (none, false, self')
  | some e => (filterx_expr_eval e, true, self')

/-- `filterx_function_args_get_named_literal_object`: like the named object
accessor but evaluates only literal expressions. -/
def filterx_function_args_get_named_literal_object (self : FilterXFunctionArgs)
    (name : String) : Option FilterXObject × Bool × FilterXFunctionArgs :=
  let (expr, self') := filterx_function_args_get_named_expr self name
  match expr with
  | none => (none, false, self')
  | some e =>
    if filterx_expr_is_literal e then (filterx_expr_eval e, true, self')
    else (none, true, self')

/-- `filterx_function_args_get_named_literal_string`. -/
def filterx_function_args_get_named_literal_string (self : FilterXFunctionArgs)
    (name : String) : Option (String × Nat) × Bool × FilterXFunctionArgs :=
  let (expr, self') := filterx_function_args_get_named_expr self name
  match expr with
  | none => (none, false, self')
  | some e => (get_literal_string_from_expr e, true, self')

/-- `filterx_function_args_get_named_literal_generic_number`: the generic
number, the `exists` and `error` out parameters, and the updated container.
The error flag is set when the argument exists but is not a literal, fails to
evaluate, or is not a primitive value. -/
def filterx_function_args_get_named_literal_generic_number (self : FilterXFunctionArgs)
    (name : String) : GenericNumber × Bool × Bool × FilterXFunctionArgs :=
  let (expr, self') := filterx_function_args_get_named_expr self name
  match expr with
  | none => (gn_set_nan, false, false, self')
  | some e =>
    if filterx_expr_is_literal e then
      match filterx_expr_eval e with
      | none => (gn_set_nan, true, true, self')
      | some obj =>
        if filterx_object_is_type_primitive obj then
          (filterx_primitive_get_value obj, true, false, self')
        else (gn_set_nan, true, true, self')
    else (gn_set_nan, true, true, self')

/-- `filterx_function_args_get_named_literal_boolean`: routes through the
generic-number extractor, demanding the `GN_INT64` kind. -/
def filterx_function_args_get_named_literal_boolean (self : FilterXFunctionArgs)
    (name : String) : Bool × Bool × Bool × FilterXFunctionArgs :=
  let (gn, ex, err, self') := filterx_function_args_get_named_literal_generic_number self name
  if !ex || err then (false, ex, err, self')
  else
    match gn with
    | .int64 _ => (gn_as_int64 gn != 0, ex, err, self')
    | _ => (false, ex, true, self')

/-- `filterx_function_args_get_named_literal_integer`: routes through the
generic-number extractor, demanding the `GN_INT64` kind. -/
def filterx_function_args_get_named_literal_integer (self : FilterXFunctionArgs)
    (name : String) : Int × Bool × Bool × FilterXFunctionArgs :=
  let (gn, ex, err, self') := filterx_function_args_get_named_literal_generic_number self name
  if !ex || err then (0, ex, err, self')
  else
    match gn with
    | .int64 _ => (gn_as_int64 gn, ex, err, self')
    | _ => (0, ex, true, self')

/-- `filterx_function_args_get_named_literal_double`: routes through the
generic-number extractor, demanding the `GN_DOUBLE` kind. -/
def filterx_function_args_get_named_literal_double (self : FilterXFunctionArgs)
    (name : String) : Rat × Bool × Bool × FilterXFunctionArgs :=
  let (gn, ex, err, self') := filterx_function_args_get_named_literal_generic_number self name
  if !ex || err then (0, ex, err, self')
  else
    match gn with
    | .double _ => (gn_as_double gn, ex, err, self')
    | _ => (0, ex, true, self')

/-- All positional arguments retrieved — the `g_assert(arg->retrieved)` sweep
of `filterx_function_args_check` passes exactly when this holds. -/
def all_positional_retrieved : List FilterXFunctionArg → Bool
  | [] => true
  | a :: rest => a.retrieved && all_positional_retrieved rest

/-- First named argument never retrieved, in table order — the argument the
`g_hash_table_iter` sweep of `filterx_function_args_check` reports. -/
def find_unretrieved_named : List (String × FilterXFunctionArg) → Option String
  | [] => none
  | (n, a) :: rest => if a.retrieved then find_unretrieved_named rest else some n

/-- Outcome of `filterx_function_args_check`: `assertionFailed` embeds the
unrecoverable `g_assert` abort on an unretrieved positional argument;
`unexpectedArg` carries the name interpolated into the user-facing
"unexpected argument" GError. -/
inductive CheckResult where
  | assertionFailed
  | unexpectedArg (name : String)
  | ok
deriving DecidableEq, Repr

/-- The message formatted by `filterx_function_args_check` for an unretrieved
named argument. -/
def unexpected_arg_message (name : String) : String :=
  "unexpected argument \"" ++ name ++ "\""

/-- `filterx_function_args_check`: assert every positional argument was
retrieved, then fail on the first named argument the callable never read. -/
def filterx_function_args_check (self : FilterXFunctionArgs) : CheckResult :=
  if all_positional_retrieved self.positional_args then
    match find_unretrieved_named self.named_args with
    | some n => .unexpectedArg n
    | none => .ok
  else .assertionFailed

/-- A native simple-function body (`FilterXSimpleFunctionProto`): receives the
evaluated positional-argument array (NULL — `none` — when the container is
empty) and returns a value or fails. -/
def SimpleProto : Type := Option (List FilterXObject) → Option FilterXObject

/-- A simple callable (`FilterXSimpleFunction`): the display name (already in
`"name()"` form), the owned argument container, and the native function. -/
structure FilterXSimpleFunction where
  function_name : String
  args : FilterXFunctionArgs
  function_proto : SimpleProto

/-- `filterx_simple_function_new` (via `filterx_function_init_instance`): the
display name is rendered once as `name ++ "()"`. -/
def filterx_simple_function_new (function_name : String) (args : FilterXFunctionArgs)
    (function_proto : SimpleProto) : FilterXSimpleFunction :=
  ⟨function_name ++ "()", args, function_proto⟩

/-- The index loop of `_simple_function_eval_args`: evaluate positional
argument `i`, append it to the array, abort on the first failure. -/
def simple_eval_args_loop (args : FilterXFunctionArgs) (i len : Nat)
    (acc : List FilterXObject) : Option (List FilterXObject) × FilterXFunctionArgs :=
  if i < len then
    let (obj, args') := filterx_function_args_get_object args i
    match obj with
    | none => (none, args')
    | some o => simple_eval_args_loop args' (i + 1) len (acc ++ [o])
  else (some acc, args)
termination_by len - i

/-- Instrumented outcome of `_simple_function_eval_args` and `_simple_eval`:
the produced value, the container after the retrieval-flag mutations, how many
times `filterx_function_args_check` ran, the error info pushed via
`filterx_simple_function_argument_error` (display name and message), whether a
`g_assert` aborted, and — for `_simple_eval` — the argument array the native
function was invoked with (`none` when it was never invoked). -/
structure EvalArgsOut where
  res : Option (List FilterXObject)
  args : FilterXFunctionArgs
  check_calls : Nat
  pushed_error : Option (String × String)
  asserted : Bool
deriving Repr

/-- `_simple_function_eval_args`: evaluate every positional argument fail-fast
into an array, then run `check`; a check error is pushed as an argument error
tagged with the (display) function name and the array is discarded. -/
def simple_function_eval_args (args0 : FilterXFunctionArgs) (display_name : String) :
    EvalArgsOut :=
  let len := filterx_function_args_len args0
  match simple_eval_args_loop args0 0 len [] with
  | (none, args') => ⟨none, args', 0, none, false⟩
  | (some lst, args') =>
    match filterx_function_args_check args' with
    | .ok => ⟨some lst, args', 1, none, false⟩
    | .unexpectedArg n =>
      ⟨none, args', 1, some (display_name, unexpected_arg_message n), false⟩
    | .assertionFailed => ⟨none, args', 1, none, true⟩

/-- Instrumented outcome of `_simple_eval`. -/
structure SimpleEvalOut where
  result : Option FilterXObject
  args : FilterXFunctionArgs
  check_calls : Nat
  pushed_error : Option (String × String)
  asserted : Bool
  proto_called_with : Option (Option (List FilterXObject))

/-- `_simple_eval`: when the container is non-empty, evaluate and validate the
arguments (aborting on failure); then invoke the native function with the
evaluated array (NULL for an empty container) and return its result
unchanged. -/
def simple_eval (self : FilterXSimpleFunction) : SimpleEvalOut :=
  if filterx_function_args_empty self.args then
    ⟨self.function_proto none, self.args, 0, none, false, some none⟩
  else
    let out := simple_function_eval_args self.args self.function_name
    match out.res with
    | none => ⟨none, out.args, out.check_calls, out.pushed_error, out.asserted, none⟩
    | some lst =>
      ⟨self.function_proto (some lst), out.args, out.check_calls, out.pushed_error,
        out.asserted, some (some lst)⟩

/-- Modelled from the spec: a plugin record of the registry (`cfg_find_plugin`
result); `plugin_construct` may fail, yielding NULL. -/
structure Plugin (α : Type) where
  construct : Option α

/-- Modelled from the spec: `plugin_construct`. -/
def plugin_construct {α : Type} (p : Plugin α) : Option α := p.construct

/-- A resolved callable expression, as far as resolution distinguishes them:
either a simple callable wrapping a native function, or the expression built
by a general/generator function constructor. -/
inductive FilterXExprRes where
  | simple (fn : FilterXSimpleFunction)
  | fromCtor (ctorId : Nat) (function_name : String) (args : FilterXFunctionArgs)

/-- Modelled from the spec: a general/generator function constructor
(`FilterXFunctionCtor`), abstracted by its observable behaviour — it either
succeeds, producing an expression wrapping itself, or fails, optionally
setting a constructor-specific error. -/
structure FilterXFunctionCtor where
  id : Nat
  succeeds : Bool
  fail_error : Option GError

/-- Run a constructor against the GError out-parameter discipline: on failure
the constructor's error is stored only when no error is already set
(`g_set_error` never overwrites). -/
def run_ctor (c : FilterXFunctionCtor) (function_name : String)
    (args : FilterXFunctionArgs) (err : Option GError) :
    Option FilterXExprRes × Option GError :=
  if c.succeeds then (some (.fromCtor c.id function_name args), err)
  else
    (none, match err with
           | some e => some e
           | none => c.fail_error)

/-- Modelled from the spec: the read-only registries resolution consults — the
built-in simple-function table, the built-in general-function constructor
table, and the plugin registry per flavor context (`LL_CONTEXT_FILTERX_SIMPLE_FUNC`
and `LL_CONTEXT_FILTERX_FUNC`), all scoped by the configuration. -/
structure GlobalConfig where
  builtin_simple_fns : List (String × SimpleProto)
  builtin_fn_ctors : List (String × FilterXFunctionCtor)
  plugins_simple : List (String × Plugin SimpleProto)
  plugins_func : List (String × Plugin FilterXFunctionCtor)

/-- Modelled from the spec: `filterx_builtin_simple_function_lookup`. -/
def filterx_builtin_simple_function_lookup (cfg : GlobalConfig) (name : String) :
    Option SimpleProto :=
  lookupName cfg.builtin_simple_fns name

/-- Modelled from the spec: `filterx_builtin_function_ctor_lookup`. -/
def filterx_builtin_function_ctor_lookup (cfg : GlobalConfig) (name : String) :
    Option FilterXFunctionCtor :=
  lookupName cfg.builtin_fn_ctors name

/-- Modelled from the spec: `cfg_find_plugin` in the simple-function context. -/
def cfg_find_plugin_simple (cfg : GlobalConfig) (name : String) :
    Option (Plugin SimpleProto) :=
  lookupName cfg.plugins_simple name

/-- Modelled from the spec: `cfg_find_plugin` in the general-function context. -/
def cfg_find_plugin_func (cfg : GlobalConfig) (name : String) :
    Option (Plugin FilterXFunctionCtor) :=
  lookupName cfg.plugins_func name

/-- `_lookup_simple_function`: built-in simple table first, then the plugin
registry of the simple-function context; no GError is produced here. -/
def lookup_simple_function (cfg : GlobalConfig) (function_name : String)
    (args : FilterXFunctionArgs) : Option FilterXExprRes :=
  match filterx_builtin_simple_function_lookup cfg function_name with
  | some f => some (.simple (filterx_simple_function_new function_name args f))
  | none =>
    match cfg_find_plugin_simple cfg function_name with
    | none => none
    | some p =>
      match plugin_construct p with
      | none => none
      | some f => some (.simple (filterx_simple_function_new function_name args f))

/-- `_lookup_function`: built-in constructor table first, falling back to the
plugin registry of the general-function context; the chosen constructor runs
against the threaded GError. -/
def lookup_function (cfg : GlobalConfig) (function_name : String)
    (args : FilterXFunctionArgs) (err : Option GError) :
    Option FilterXExprRes × Option GError :=
  match filterx_builtin_function_ctor_lookup cfg function_name with
  | some ctor => run_ctor ctor function_name args err
  | none =>
    match cfg_find_plugin_func cfg function_name with
    | none => (none, err)
    | some p =>
      match plugin_construct p with
      | none => (none, err)
      | some ctor => run_ctor ctor function_name args err

/-- `filterx_function_lookup`: build the container (consuming the raw list),
try the simple tier, then the general tier; if nothing resolved and no more
specific error was set, set the function-not-found error. -/
def filterx_function_lookup (cfg : GlobalConfig) (function_name : String)
    (args_list : List FilterXFunctionArg) : Option FilterXExprRes × Option GError :=
  match filterx_function_args_new args_list with
  | .error e => (none, some e)
  | .ok args =>
    match lookup_simple_function cfg function_name args with
    | some expr => (some expr, none)
    | none =>
      match lookup_function cfg function_name args none with
      | (some expr, err) => (some expr, err)
      | (none, some e) => (none, some e)
      | (none, none) => (none, some ⟨.functionNotFound, "function not found"⟩)

/-- The scan state of the construction loop: does the list, entered with the
given `has_named` flag, contain a positional argument at or after a named
one?  `violates false l` is exactly the condition under which
`filterx_function_args_new l` fails. -/
def violates : Bool → List FilterXFunctionArg → Bool
  | _, [] => false
  | hn, a :: rest =>
    match a.name with
    | none => if hn then true else violates hn rest
    | some _ => violates true rest

/-- A raw argument list is malformed iff a positional argument follows some
named one. -/
def hasPosAfterNamed (l : List FilterXFunctionArg) : Bool := violates false l

/-- Evaluate a positional-argument list left to right, failing on the first
expression whose evaluation fails — the mathematical description of the
`_simple_function_eval_args` loop. -/
def evalPositional : List FilterXFunctionArg → Option (List FilterXObject)
  | [] => some []
  | a :: rest =>
    match filterx_expr_eval a.value with
    | none => none
    | some v =>
      match evalPositional rest with
      | none => none
      | some vs => some (v :: vs)

/-- Mark every argument of a list retrieved — the positional state left behind
by a completed `_simple_function_eval_args` loop. -/
def markAll (l : List FilterXFunctionArg) : List FilterXFunctionArg :=
  l.map fun a => { a with retrieved := true }

/-- One invocation of the container retrieval API, by position or by name. -/
inductive RetrievalOp where
  | getExpr (i : Nat)
  | getObject (i : Nat)
  | getLiteralString (i : Nat)
  | isLiteralNull (i : Nat)
  | getNamedExpr (n : String)
  | getNamedObject (n : String)
  | getNamedLiteralObject (n : String)
  | getNamedLiteralString (n : String)
  | getNamedLiteralBoolean (n : String)
  | getNamedLiteralInteger (n : String)
  | getNamedLiteralDouble (n : String)
  | getNamedLiteralGenericNumber (n : String)

/-- The argument a retrieval operation targets: a positional index or a name. -/
def opTarget : RetrievalOp → Sum Nat String
  | .getExpr i => .inl i
  | .getObject i => .inl i
  | .getLiteralString i => .inl i
  | .isLiteralNull i => .inl i
  | .getNamedExpr n => .inr n
  | .getNamedObject n => .inr n
  | .getNamedLiteralObject n => .inr n
  | .getNamedLiteralString n => .inr n
  | .getNamedLiteralBoolean n => .inr n
  | .getNamedLiteralInteger n => .inr n
  | .getNamedLiteralDouble n => .inr n
  | .getNamedLiteralGenericNumber n => .inr n

/-- The container state after one retrieval operation — the state component of
each retrieval function. -/
def applyOp (s : FilterXFunctionArgs) : RetrievalOp → FilterXFunctionArgs
  | .getExpr i => (filterx_function_args_get_expr s i).2
  | .getObject i => (filterx_function_args_get_object s i).2
  | .getLiteralString i => (filterx_function_args_get_literal_string s i).2
  | .isLiteralNull i => (filterx_function_args_is_literal_null s i).2
  | .getNamedExpr n => (filterx_function_args_get_named_expr s n).2
  | .getNamedObject n => (filterx_function_args_get_named_object s n).2.2
  | .getNamedLiteralObject n => (filterx_function_args_get_named_literal_object s n).2.2
  | .getNamedLiteralString n => (filterx_function_args_get_named_literal_string s n).2.2
  | .getNamedLiteralBoolean n => (filterx_function_args_get_named_literal_boolean s n).2.2.2
  | .getNamedLiteralInteger n => (filterx_function_args_get_named_literal_integer s n).2.2.2
  | .getNamedLiteralDouble n => (filterx_function_args_get_named_literal_double s n).2.2.2
  | .getNamedLiteralGenericNumber n =>
      (filterx_function_args_get_named_literal_generic_number s n).2.2.2

/-- The container state after a sequence of retrieval operations. -/
def applyOps (s : FilterXFunctionArgs) (ops : List RetrievalOp) : FilterXFunctionArgs :=
  ops.foldl applyOp s

/-- Every named-table entry bound to the given name carries a true retrieval
flag. -/
def allNamedMarked (s : FilterXFunctionArgs) (n : String) : Prop :=
  ∀ p ∈ s.named_args, p.1 = n → p.2.retrieved = true

theorem all_positional_retrieved_eq_true_iff :
    ∀ l : List FilterXFunctionArg,
      all_positional_retrieved l = true ↔ ∀ a ∈ l, a.retrieved = true
  | [] => by simp [all_positional_retrieved]
  | a :: rest => by
      simp [all_positional_retrieved, all_positional_retrieved_eq_true_iff rest]

theorem find_unretrieved_named_eq_none_iff :
    ∀ m : List (String × FilterXFunctionArg),
      find_unretrieved_named m = none ↔ ∀ p ∈ m, p.2.retrieved = true
  | [] => by simp [find_unretrieved_named]
  | (n, a) :: rest => by
      by_cases h : a.retrieved = true <;>
        simp [find_unretrieved_named, h, find_unretrieved_named_eq_none_iff rest]

theorem find_unretrieved_named_eq_some :
    ∀ m : List (String × FilterXFunctionArg), ∀ n : String,
      find_unretrieved_named m = some n →
      ∃ a, (n, a) ∈ m ∧ a.retrieved = false
  | [], _, h => by simp [find_unretrieved_named] at h
  | (k, a) :: rest, n, h => by
      by_cases hr : a.retrieved = true
      · simp only [find_unretrieved_named, hr, if_true] at h
        obtain ⟨b, hb, hbr⟩ := find_unretrieved_named_eq_some rest n h
        exact ⟨b, List.mem_cons_of_mem _ hb, hbr⟩
      · simp only [find_unretrieved_named, hr, if_false] at h
        cases h
        exact ⟨a, List.mem_cons_self _ _, Bool.not_eq_true _ ▸ hr⟩

/-- C3: in `filterx_function_args_check`, a positional argument with
`retrieved == false` triggers the unrecoverable `g_assert`; when every
positional argument has been retrieved, the assertion branch is unreachable. -/
theorem check_positional_contract (c : FilterXFunctionArgs) :
    ((∃ a ∈ c.positional_args, a.retrieved = false) →
      filterx_function_args_check c = .assertionFailed) ∧
    ((∀ a ∈ c.positional_args, a.retrieved = true) →
      filterx_function_args_check c ≠ .assertionFailed) := by
  constructor
  · rintro ⟨a, ha, hr⟩
    have hfalse : all_positional_retrieved c.positional_args = false := by
      rcases Bool.eq_false_or_eq_true (all_positional_retrieved c.positional_args) with h | h
      · have := (all_positional_retrieved_eq_true_iff _).mp h a ha
        rw [this] at hr
        cases hr
      · exact h
    simp [filterx_function_args_check, hfalse]
  · intro h
    have htrue : all_positional_retrieved c.positional_args = true :=
      (all_positional_retrieved_eq_true_iff _).mpr h
    simp only [filterx_function_args_check, htrue, if_true]
    cases find_unretrieved_named c.named_args <;> simp

/-- Witness for `check_positional_contract` on one-element containers. -/
theorem check_positional_contract_witness :
    filterx_function_args_check ⟨[⟨none, literalExpr .null, false⟩], []⟩ =
        .assertionFailed ∧
    filterx_function_args_check ⟨[⟨none, literalExpr .null, true⟩], []⟩ ≠
        .assertionFailed := by
  constructor
  · exact (check_positional_contract _).1 ⟨⟨none, literalExpr .null, false⟩, by simp, rfl⟩
  · exact (check_positional_contract _).2 (by simp)

/-- Counterexample to C2 as stated: in a container whose positional argument
was never retrieved, an unretrieved named argument `"x"` does not produce an
unexpected-argument error — the positional `g_assert` aborts first. -/
theorem check_named_preempted_counterexample :
    lookupName [("x", (⟨some "x", literalExpr .null, false⟩ : FilterXFunctionArg))] "x" =
        some ⟨some "x", literalExpr .null, false⟩ ∧
    filterx_function_args_check
        ⟨[⟨none, literalExpr .null, false⟩], [("x", ⟨some "x", literalExpr .null, false⟩)]⟩ =
        .assertionFailed ∧
    ∀ n, filterx_function_args_check
        ⟨[⟨none, literalExpr .null, false⟩], [("x", ⟨some "x", literalExpr .null, false⟩)]⟩ ≠
        .unexpectedArg n := by
  refine ⟨rfl, rfl, ?_⟩
  intro n h
  have h' : CheckResult.assertionFailed = CheckResult.unexpectedArg n := h
  exact CheckResult.noConfusion h'

/-- C2 (amended): provided every positional argument has been retrieved, a
named argument with `retrieved == false` makes `check` fail with an
unexpected-argument error naming an unretrieved named argument, and `check`
succeeds when every named argument has been retrieved. -/
theorem check_named_contract (c : FilterXFunctionArgs)
    (hpos : ∀ a ∈ c.positional_args, a.retrieved = true) :
    ((∃ p ∈ c.named_args, p.2.retrieved = false) →
      ∃ n a, filterx_function_args_check c = .unexpectedArg n ∧
        (n, a) ∈ c.named_args ∧ a.retrieved = false) ∧
    ((∀ p ∈ c.named_args, p.2.retrieved = true) →
      filterx_function_args_check c = .ok) := by
  have hall : all_positional_retrieved c.positional_args = true :=
    (all_positional_retrieved_eq_true_iff _).mpr hpos
  constructor
  · rintro ⟨p, hp, hr⟩
    have hfind : find_unretrieved_named c.named_args ≠ none := by
      rw [Ne, find_unretrieved_named_eq_none_iff]
      intro hforall
      have := hforall p hp
      rw [this] at hr
      cases hr
    obtain ⟨n, hn⟩ := Option.ne_none_iff_exists'.mp hfind
    obtain ⟨a, ham, har⟩ := find_unretrieved_named_eq_some _ _ hn
    exact ⟨n, a, by simp [filterx_function_args_check, hall, hn], ham, har⟩
  · intro h
    have hnone : find_unretrieved_named c.named_args = none :=
      (find_unretrieved_named_eq_none_iff _).mpr h
    simp [filterx_function_args_check, hall, hnone]

/-- Witness for `check_named_contract` on a container with one retrieved
positional argument and one unretrieved named argument. -/
theorem check_named_contract_witness :
    ∃ n a, filterx_function_args_check
        ⟨[⟨none, literalExpr .null, true⟩], [("x", ⟨some "x", literalExpr .null, false⟩)]⟩ =
        .unexpectedArg n ∧
      (n, a) ∈ [("x", (⟨some "x", literalExpr .null, false⟩ : FilterXFunctionArg))] ∧
      a.retrieved = false :=
  (check_named_contract ⟨[⟨none, literalExpr .null, true⟩],
      [("x", ⟨some "x", literalExpr .null, false⟩)]⟩ (by simp)).1
    ⟨("x", ⟨some "x", literalExpr .null, false⟩), by simp, rfl⟩

/-- Counterexample to C5 as stated: two named arguments both called `"a"` are
accepted by `filterx_function_args_new`, and the produced container binds
`"a"` to the second argument — the first has been silently displaced (and
released at insertion time). -/
theorem args_new_duplicate_named_counterexample :
    filterx_function_args_new_full
        [⟨some "a", literalExpr (.str "first"), false⟩,
         ⟨some "a", literalExpr (.str "second"), false⟩] =
      ⟨.ok ⟨[], [("a", ⟨some "a", literalExpr (.str "second"), false⟩)]⟩,
        [⟨some "a", literalExpr (.str "first"), false⟩], true⟩ := by
  simp [filterx_function_args_new_full, args_new_loop, htInsertTrack]

/-- C5 (amended): duplicate named arguments are not rejected — construction
succeeds, the later argument replaces the earlier one in the named table
(last writer wins), and the displaced earlier argument is released. -/
theorem args_new_duplicate_named_last_wins (n : String) (e₁ e₂ : FilterXExpr) :
    filterx_function_args_new_full
        [⟨some n, e₁, false⟩, ⟨some n, e₂, false⟩] =
      ⟨.ok ⟨[], [(n, ⟨some n, e₂, false⟩)]⟩, [⟨some n, e₁, false⟩], true⟩ := by
  simp [filterx_function_args_new_full, args_new_loop, htInsertTrack]

/-- C8: `get_named_literal_integer` yields `(42, exists = true, error = false)`
for a named argument bound to the integer literal `42`, sets `error` for one
bound to the floating-point literal `3.14`, and yields
`(0, exists = false, error = false)` for an absent name. -/
theorem get_named_literal_integer_spec (c : FilterXFunctionArgs) (n : String) :
    (∀ a, lookupName c.named_args n = some a →
      a.value = literalExpr (.primitive (.int64 42)) →
      ((filterx_function_args_get_named_literal_integer c n).1,
        (filterx_function_args_get_named_literal_integer c n).2.1,
        (filterx_function_args_get_named_literal_integer c n).2.2.1) =
        (42, true, false)) ∧
    (∀ a, lookupName c.named_args n = some a →
      a.value = literalExpr (.primitive (.double (3.14 : Rat))) →
      ((filterx_function_args_get_named_literal_integer c n).1,
        (filterx_function_args_get_named_literal_integer c n).2.1,
        (filterx_function_args_get_named_literal_integer c n).2.2.1) =
        (0, true, true)) ∧
    (lookupName c.named_args n = none →
      ((filterx_function_args_get_named_literal_integer c n).1,
        (filterx_function_args_get_named_literal_integer c n).2.1,
        (filterx_function_args_get_named_literal_integer c n).2.2.1) =
        (0, false, false)) := by
  refine ⟨?_, ?_, ?_⟩
  · intro a hl hv
    simp [filterx_function_args_get_named_literal_integer,
      filterx_function_args_get_named_literal_generic_number,
      filterx_function_args_get_named_expr, hl, hv, literalExpr,
      filterx_expr_is_literal, filterx_expr_eval, filterx_object_is_type_primitive,
      filterx_primitive_get_value, gn_as_int64]
  · intro a hl hv
    simp [filterx_function_args_get_named_literal_integer,
      filterx_function_args_get_named_literal_generic_number,
      filterx_function_args_get_named_expr, hl, hv, literalExpr,
      filterx_expr_is_literal, filterx_expr_eval, filterx_object_is_type_primitive,
      filterx_primitive_get_value]
  · intro hl
    simp [filterx_function_args_get_named_literal_integer,
      filterx_function_args_get_named_literal_generic_number,
      filterx_function_args_get_named_expr, hl, gn_set_nan]

/-- Witness for `get_named_literal_integer_spec` on a one-entry container
binding `"n"` to the literal `42`. -/
theorem get_named_literal_integer_spec_witness :
    ((filterx_function_args_get_named_literal_integer
        ⟨[], [("n", ⟨some "n", literalExpr (.primitive (.int64 42)), false⟩)]⟩ "n").1,
      (filterx_function_args_get_named_literal_integer
        ⟨[], [("n", ⟨some "n", literalExpr (.primitive (.int64 42)), false⟩)]⟩ "n").2.1,
      (filterx_function_args_get_named_literal_integer
        ⟨[], [("n", ⟨some "n", literalExpr (.primitive (.int64 42)), false⟩)]⟩ "n").2.2.1) =
      (42, true, false) :=
  (get_named_literal_integer_spec
      ⟨[], [("n", ⟨some "n", literalExpr (.primitive (.int64 42)), false⟩)]⟩ "n").1
    ⟨some "n", literalExpr (.primitive (.int64 42)), false⟩ (by simp [lookupName]) rfl

/-- C9: `get_positional_literal_string(0)` on an argument bound to the string
literal `"hello"` returns the view `("hello", 5)`; on a non-literal argument
it returns none and never evaluates the expression. -/
theorem get_literal_string_spec (c : FilterXFunctionArgs) (a : FilterXFunctionArg)
    (rest : List FilterXFunctionArg) (hc : c.positional_args = a :: rest) :
    (a.value = literalExpr (.str "hello") →
      (filterx_function_args_get_literal_string c 0).1 = some ("hello", 5)) ∧
    (filterx_expr_is_literal a.value = false →
      (filterx_function_args_get_literal_string_full c 0).1 = none ∧
      (filterx_function_args_get_literal_string_full c 0).2.1 = false) := by
  constructor
  · intro hv
    simp [filterx_function_args_get_literal_string,
      filterx_function_args_get_literal_string_full, filterx_function_args_get_expr,
      hc, hv, get_literal_string_from_expr_full, literalExpr, filterx_expr_is_literal,
      filterx_expr_eval, filterx_string_get_value]
    decide
  · intro hv
    simp [filterx_function_args_get_literal_string_full, filterx_function_args_get_expr,
      hc, get_literal_string_from_expr_full, hv]

/-- Witness for `get_literal_string_spec` on a container whose positional
argument 0 is the string literal `"hello"`. -/
theorem get_literal_string_spec_witness :
    (filterx_function_args_get_literal_string
        ⟨[⟨none, literalExpr (.str "hello"), false⟩], []⟩ 0).1 = some ("hello", 5) :=
  (get_literal_string_spec ⟨[⟨none, literalExpr (.str "hello"), false⟩], []⟩
      ⟨none, literalExpr (.str "hello"), false⟩ [] rfl).1 rfl

theorem htInsertTrack_multiset :
    ∀ (m : List (String × FilterXFunctionArg)) (k : String) (v : FilterXFunctionArg),
      (((htInsertTrack m k v).1.map fun p => p.2 : List FilterXFunctionArg) :
          Multiset FilterXFunctionArg) + ↑(htInsertTrack m k v).2.toList =
        ↑(m.map fun p => p.2) + {v}
  | [], k, v => by simp [htInsertTrack]
  | (k', v') :: rest, k, v => by
      by_cases h : k' = k
      · simp only [htInsertTrack, h, if_true, List.map_cons, Option.toList_some,
          ← Multiset.cons_coe]
        simp only [← Multiset.singleton_add, ← Multiset.coe_singleton]
        abel
      · have ih := htInsertTrack_multiset rest k v
        simp only [htInsertTrack, h, if_false, List.map_cons, ← Multiset.cons_coe,
          Multiset.cons_add]
        rw [ih]

theorem args_new_loop_freed :
    ∀ (elems : List FilterXFunctionArg) (hn : Bool) (pos : List FilterXFunctionArg)
      (named : List (String × FilterXFunctionArg)) (rel : List FilterXFunctionArg),
      (args_new_loop elems hn pos named rel).raw_list_freed = true
  | [], _, _, _, _ => rfl
  | arg :: rest, hn, pos, named, rel => by
      rcases ha : arg.name with _ | n
      · by_cases h : hn <;>
          simp [args_new_loop, ha, h, args_new_loop_freed rest]
      · simp [args_new_loop, ha, args_new_loop_freed rest]

theorem args_new_loop_cons_pos (b : FilterXFunctionArg)
    (rest pos : List FilterXFunctionArg) (named : List (String × FilterXFunctionArg))
    (rel : List FilterXFunctionArg) (hb : b.name = none) :
    args_new_loop (b :: rest) false pos named rel =
      args_new_loop rest false (pos ++ [b]) named rel := by
  simp [args_new_loop, hb]

theorem args_new_loop_cons_named (b : FilterXFunctionArg) (nm : String)
    (rest : List FilterXFunctionArg) (hn : Bool) (pos : List FilterXFunctionArg)
    (named : List (String × FilterXFunctionArg)) (rel : List FilterXFunctionArg)
    (hb : b.name = some nm) :
    args_new_loop (b :: rest) hn pos named rel =
      args_new_loop rest true pos (htInsertTrack named nm b).1
        (rel ++ (htInsertTrack named nm b).2.toList) := by
  simp [args_new_loop, hb]

theorem args_new_loop_violation :
    ∀ (pre : List FilterXFunctionArg) (a : FilterXFunctionArg)
      (post : List FilterXFunctionArg) (hn : Bool) (pos : List FilterXFunctionArg)
      (named : List (String × FilterXFunctionArg)) (rel : List FilterXFunctionArg),
      a.name = none →
      (hn = true ∨ ∃ b ∈ pre, b.name ≠ none) →
      violates hn pre = false →
      (args_new_loop (pre ++ a :: post) hn pos named rel).result =
          .error ⟨.ctorFail, "cannot set positional argument after a named argument"⟩ ∧
      (((args_new_loop (pre ++ a :: post) hn pos named rel).released :
          List FilterXFunctionArg) : Multiset FilterXFunctionArg) =
          ↑rel + ↑pos + ↑(named.map fun p => p.2) + ↑pre
  | [], a, post, hn, pos, named, rel, ha, hdisj, _ => by
      have hhn : hn = true := by
        rcases hdisj with h | ⟨b, hb, _⟩
        · exact h
        · cases hb
      subst hhn
      rw [List.nil_append,
        show args_new_loop (a :: post) true pos named rel =
          ⟨.error ⟨.ctorFail, "cannot set positional argument after a named argument"⟩,
            rel ++ pos ++ named.map (fun p => p.2), true⟩ from by simp [args_new_loop, ha]]
      refine ⟨rfl, ?_⟩
      simp only [← Multiset.coe_add]
      simp
  | b :: pre', a, post, hn, pos, named, rel, ha, hdisj, hv => by
      rcases hb : b.name with _ | nm
      · have hhn : hn = false := by
          cases hn
          · rfl
          · simp [violates, hb] at hv
        subst hhn
        have hv' : violates false pre' = false := by
          simpa [violates, hb] using hv
        have hdisj' : (false : Bool) = true ∨ ∃ c ∈ pre', c.name ≠ none := by
          rcases hdisj with h | ⟨c, hc, hcn⟩
          · cases h
          · rcases List.mem_cons.mp hc with h | h
            · subst h
              rw [hb] at hcn
              cases hcn rfl
            · exact Or.inr ⟨c, h, hcn⟩
        have ih := args_new_loop_violation pre' a post false (pos ++ [b]) named rel
          ha hdisj' hv'
        rw [List.cons_append, args_new_loop_cons_pos b _ _ _ _ hb]
        refine ⟨ih.1, ?_⟩
        rw [ih.2]
        simp only [← Multiset.coe_add, ← Multiset.cons_coe, ← Multiset.singleton_add]
        abel
      · have hv' : violates true pre' = false := by
          simpa [violates, hb] using hv
        have ih := args_new_loop_violation pre' a post true pos
          (htInsertTrack named nm b).1
          (rel ++ (htInsertTrack named nm b).2.toList) ha (Or.inl rfl) hv'
        rw [List.cons_append, args_new_loop_cons_named b nm _ _ _ _ _ hb]
        refine ⟨ih.1, ?_⟩
        rw [ih.2]
        have hins := htInsertTrack_multiset named nm b
        simp only [← Multiset.coe_add, ← Multiset.cons_coe, ← Multiset.singleton_add]
        trans (↑rel : Multiset FilterXFunctionArg) + ↑pos +
          ((↑((htInsertTrack named nm b).1.map fun p => p.2) : Multiset FilterXFunctionArg) +
            ↑(htInsertTrack named nm b).2.toList) + ↑pre'
        · abel
        · rw [hins]
          abel

/-- Counterexample to C1 as stated: the construction error's message is
`"cannot set positional argument after a named argument"`, not the claimed
`"positional argument after a named argument"` (which is a proper suffix of
it). -/
theorem args_new_error_message_counterexample :
    filterx_function_args_new
        [⟨some "a", literalExpr .null, false⟩, ⟨none, literalExpr .null, false⟩] =
      .error ⟨.ctorFail, "cannot set positional argument after a named argument"⟩ ∧
    "cannot set positional argument after a named argument" ≠
      "positional argument after a named argument" := by
  refine ⟨?_, by decide⟩
  simp [filterx_function_args_new, filterx_function_args_new_full, args_new_loop]

/-- C1 (amended): a positional argument after any named argument makes
`filterx_function_args_new` fail with the construction error
`"cannot set positional argument after a named argument"` (which contains the
claimed phrase as a suffix) and return no container; the arguments already
consumed into the container are exactly the ones released before returning,
and the raw list is freed whether construction succeeds or fails. -/
theorem args_new_positional_after_named (pre post : List FilterXFunctionArg)
    (a : FilterXFunctionArg) (ha : a.name = none)
    (hnamed : ∃ b ∈ pre, b.name ≠ none) (hwf : hasPosAfterNamed pre = false) :
    (filterx_function_args_new_full (pre ++ a :: post)).result =
        .error ⟨.ctorFail, "cannot set " ++ "positional argument after a named argument"⟩ ∧
    (((filterx_function_args_new_full (pre ++ a :: post)).released :
        List FilterXFunctionArg) : Multiset FilterXFunctionArg) = ↑pre ∧
    ∀ l, (filterx_function_args_new_full l).raw_list_freed = true := by
  have h := args_new_loop_violation pre a post false [] [] [] ha (Or.inr hnamed) hwf
  refine ⟨h.1, ?_, fun l => args_new_loop_freed l false [] [] []⟩
  rw [show (filterx_function_args_new_full (pre ++ a :: post)).released =
      (args_new_loop (pre ++ a :: post) false [] [] []).released from rfl, h.2]
  simp

/-- Witness for `args_new_positional_after_named`: the two-element list
`[named "a", positional]` fails with the construction error, releasing exactly
the consumed named argument. -/
theorem args_new_positional_after_named_witness :
    (filterx_function_args_new_full
        [⟨some "a", literalExpr .null, false⟩, ⟨none, literalExpr .null, false⟩]).result =
        .error ⟨.ctorFail, "cannot set " ++ "positional argument after a named argument"⟩ ∧
    (((filterx_function_args_new_full
        [⟨some "a", literalExpr .null, false⟩, ⟨none, literalExpr .null, false⟩]).released :
        List FilterXFunctionArg) : Multiset FilterXFunctionArg) =
        ↑[(⟨some "a", literalExpr .null, false⟩ : FilterXFunctionArg)] := by
  have h := args_new_positional_after_named [⟨some "a", literalExpr .null, false⟩] []
    ⟨none, literalExpr .null, false⟩ rfl
    ⟨⟨some "a", literalExpr .null, false⟩, by simp, by simp⟩ rfl
  exact ⟨h.1, h.2.1⟩

theorem get_object_state (s : FilterXFunctionArgs) (i : Nat) :
    (filterx_function_args_get_object s i).2 = (filterx_function_args_get_expr s i).2 := by
  rcases hc : filterx_function_args_get_expr s i with ⟨e, s'⟩
  cases e <;> simp [filterx_function_args_get_object, hc]

theorem get_literal_string_full_state (s : FilterXFunctionArgs) (i : Nat) :
    (filterx_function_args_get_literal_string_full s i).2.2 =
      (filterx_function_args_get_expr s i).2 := by
  rcases hc : filterx_function_args_get_expr s i with ⟨e, s'⟩
  cases e with
  | none => simp [filterx_function_args_get_literal_string_full, hc]
  | some e =>
    rcases hg : get_literal_string_from_expr_full e with ⟨r, ev⟩
    simp [filterx_function_args_get_literal_string_full, hc, hg]

theorem get_literal_string_state (s : FilterXFunctionArgs) (i : Nat) :
    (filterx_function_args_get_literal_string s i).2 =
      (filterx_function_args_get_expr s i).2 := by
  have h := get_literal_string_full_state s i
  rcases hf : filterx_function_args_get_literal_string_full s i with ⟨r, ev, s'⟩
  rw [hf] at h
  simp only [filterx_function_args_get_literal_string, hf]
  exact h

theorem is_literal_null_state (s : FilterXFunctionArgs) (i : Nat) :
    (filterx_function_args_is_literal_null s i).2 =
      (filterx_function_args_get_expr s i).2 := by
  rcases hc : filterx_function_args_get_expr s i with ⟨e, s'⟩
  cases e with
  | none => simp [filterx_function_args_is_literal_null, hc]
  | some e =>
    by_cases hl : filterx_expr_is_literal e = true <;>
      cases he : filterx_expr_eval e <;>
        simp [filterx_function_args_is_literal_null, hc, hl, he]

theorem get_named_object_state (s : FilterXFunctionArgs) (n : String) :
    (filterx_function_args_get_named_object s n).2.2 =
      (filterx_function_args_get_named_expr s n).2 := by
  rcases hc : filterx_function_args_get_named_expr s n with ⟨e, s'⟩
  cases e <;> simp [filterx_function_args_get_named_object, hc]

theorem get_named_literal_object_state (s : FilterXFunctionArgs) (n : String) :
    (filterx_function_args_get_named_literal_object s n).2.2 =
      (filterx_function_args_get_named_expr s n).2 := by
  rcases hc : filterx_function_args_get_named_expr s n with ⟨e, s'⟩
  cases e with
  | none => simp [filterx_function_args_get_named_literal_object, hc]
  | some e =>
    by_cases hl : filterx_expr_is_literal e = true <;>
      simp [filterx_function_args_get_named_literal_object, hc, hl]

theorem get_named_literal_string_state (s : FilterXFunctionArgs) (n : String) :
    (filterx_function_args_get_named_literal_string s n).2.2 =
      (filterx_function_args_get_named_expr s n).2 := by
  rcases hc : filterx_function_args_get_named_expr s n with ⟨e, s'⟩
  cases e <;> simp [filterx_function_args_get_named_literal_string, hc]

theorem get_named_literal_generic_number_state (s : FilterXFunctionArgs) (n : String) :
    (filterx_function_args_get_named_literal_generic_number s n).2.2.2 =
      (filterx_function_args_get_named_expr s n).2 := by
  rcases hc : filterx_function_args_get_named_expr s n with ⟨e, s'⟩
  cases e with
  | none => simp [filterx_function_args_get_named_literal_generic_number, hc]
  | some e =>
    by_cases hl : filterx_expr_is_literal e = true
    · cases he : filterx_expr_eval e with
      | none => simp [filterx_function_args_get_named_literal_generic_number, hc, hl, he]
      | some obj =>
        by_cases hp : filterx_object_is_type_primitive obj = true <;>
          simp [filterx_function_args_get_named_literal_generic_number, hc, hl, he, hp]
    · simp [filterx_function_args_get_named_literal_generic_number, hc, hl]

theorem get_named_literal_boolean_state (s : FilterXFunctionArgs) (n : String) :
    (filterx_function_args_get_named_literal_boolean s n).2.2.2 =
      (filterx_function_args_get_named_expr s n).2 := by
  have h := get_named_literal_generic_number_state s n
  rcases hg : filterx_function_args_get_named_literal_generic_number s n with ⟨gn, ex, er, s'⟩
  rw [hg] at h
  by_cases hc : (!ex || er) = true
  · simp only [filterx_function_args_get_named_literal_boolean, hg, hc, if_true]
    exact h
  · have hc' : (!ex || er) = false := by
      revert hc
      cases (!ex || er) <;> simp
    cases gn <;> simp only [filterx_function_args_get_named_literal_boolean, hg, hc',
      Bool.false_eq_true, if_false] <;> exact h

theorem get_named_literal_integer_state (s : FilterXFunctionArgs) (n : String) :
    (filterx_function_args_get_named_literal_integer s n).2.2.2 =
      (filterx_function_args_get_named_expr s n).2 := by
  have h := get_named_literal_generic_number_state s n
  rcases hg : filterx_function_args_get_named_literal_generic_number s n with ⟨gn, ex, er, s'⟩
  rw [hg] at h
  by_cases hc : (!ex || er) = true
  · simp only [filterx_function_args_get_named_literal_integer, hg, hc, if_true]
    exact h
  · have hc' : (!ex || er) = false := by
      revert hc
      cases (!ex || er) <;> simp
    cases gn <;> simp only [filterx_function_args_get_named_literal_integer, hg, hc',
      Bool.false_eq_true, if_false] <;> exact h

theorem get_named_literal_double_state (s : FilterXFunctionArgs) (n : String) :
    (filterx_function_args_get_named_literal_double s n).2.2.2 =
      (filterx_function_args_get_named_expr s n).2 := by
  have h := get_named_literal_generic_number_state s n
  rcases hg : filterx_function_args_get_named_literal_generic_number s n with ⟨gn, ex, er, s'⟩
  rw [hg] at h
  by_cases hc : (!ex || er) = true
  · simp only [filterx_function_args_get_named_literal_double, hg, hc, if_true]
    exact h
  · have hc' : (!ex || er) = false := by
      revert hc
      cases (!ex || er) <;> simp
    cases gn <;> simp only [filterx_function_args_get_named_literal_double, hg, hc',
      Bool.false_eq_true, if_false] <;> exact h

theorem applyOp_state (s : FilterXFunctionArgs) (op : RetrievalOp) :
    applyOp s op = (match opTarget op with
      | Sum.inl i => (filterx_function_args_get_expr s i).2
      | Sum.inr n => (filterx_function_args_get_named_expr s n).2) := by
  cases op <;>
    simp [applyOp, opTarget, get_object_state, get_literal_string_state,
      is_literal_null_state, get_named_object_state, get_named_literal_object_state,
      get_named_literal_string_state, get_named_literal_generic_number_state,
      get_named_literal_boolean_state, get_named_literal_integer_state,
      get_named_literal_double_state]

theorem get_expr_state_named (s : FilterXFunctionArgs) (i : Nat) :
    ((filterx_function_args_get_expr s i).2).named_args = s.named_args := by
  simp only [filterx_function_args_get_expr]
  split
  · rfl
  · split <;> rfl

theorem get_named_expr_state_pos (s : FilterXFunctionArgs) (n : String) :
    ((filterx_function_args_get_named_expr s n).2).positional_args = s.positional_args := by
  simp only [filterx_function_args_get_named_expr]
  split <;> rfl

theorem htMarkRetrieved_marks (m : List (String × FilterXFunctionArg)) (k : String) :
    ∀ p ∈ htMarkRetrieved m k, p.1 = k → p.2.retrieved = true := by
  intro p hp hk
  obtain ⟨q, hq, hqe⟩ := List.mem_map.mp hp
  by_cases h : q.1 = k
  · rw [← hqe]
    simp [h]
  · rw [← hqe] at hk
    simp [h] at hk

theorem htMarkRetrieved_mono (m : List (String × FilterXFunctionArg)) (k n : String)
    (h : ∀ p ∈ m, p.1 = n → p.2.retrieved = true) :
    ∀ p ∈ htMarkRetrieved m k, p.1 = n → p.2.retrieved = true := by
  intro p hp hn
  obtain ⟨q, hq, hqe⟩ := List.mem_map.mp hp
  by_cases hqk : q.1 = k
  · rw [← hqe]
    simp [hqk]
  · rw [← hqe] at hn ⊢
    simp only [hqk, if_false] at hn ⊢
    exact h q hq hn

theorem lookupName_eq_none_forall {α : Type} :
    ∀ (m : List (String × α)) (n : String), lookupName m n = none →
      ∀ p ∈ m, p.1 ≠ n
  | [], _, _ => by simp
  | (k, v) :: rest, n, h => by
      by_cases hk : k = n
      · simp [lookupName, hk] at h
      · simp only [lookupName, hk, if_false] at h
        intro p hp
        rcases List.mem_cons.mp hp with hp | hp
        · subst hp
          exact hk
        · exact lookupName_eq_none_forall rest n h p hp

theorem get_named_expr_marks (s : FilterXFunctionArgs) (n : String) :
    allNamedMarked ((filterx_function_args_get_named_expr s n).2) n := by
  intro p hp hpn
  rcases hl : lookupName s.named_args n with _ | a
  · simp only [filterx_function_args_get_named_expr, hl] at hp
    exact absurd hpn (lookupName_eq_none_forall s.named_args n hl p hp)
  · simp only [filterx_function_args_get_named_expr, hl] at hp
    exact htMarkRetrieved_marks s.named_args n p hp hpn

theorem applyOp_named_marks (s : FilterXFunctionArgs) (n : String) (op : RetrievalOp)
    (hop : opTarget op = .inr n) : allNamedMarked (applyOp s op) n := by
  rw [applyOp_state, hop]
  exact get_named_expr_marks s n

theorem applyOp_named_mono (s : FilterXFunctionArgs) (n : String) (op : RetrievalOp)
    (h : allNamedMarked s n) : allNamedMarked (applyOp s op) n := by
  rw [applyOp_state]
  cases ht : opTarget op with
  | inl i =>
    intro p hp
    rw [get_expr_state_named] at hp
    exact h p hp
  | inr k =>
    intro p hp hpn
    rcases hl : lookupName s.named_args k with _ | a
    · simp only [filterx_function_args_get_named_expr, hl] at hp
      exact h p hp hpn
    · simp only [filterx_function_args_get_named_expr, hl] at hp
      exact htMarkRetrieved_mono s.named_args k n h p hp hpn

theorem applyOps_named_mono :
    ∀ (ops : List RetrievalOp) (s : FilterXFunctionArgs) (n : String),
      allNamedMarked s n → allNamedMarked (applyOps s ops) n
  | [], _, _, h => h
  | op :: rest, s, n, h =>
      applyOps_named_mono rest (applyOp s op) n (applyOp_named_mono s n op h)

theorem check_unexpected_sound (s : FilterXFunctionArgs) (n : String)
    (h : filterx_function_args_check s = .unexpectedArg n) :
    ∃ a, (n, a) ∈ s.named_args ∧ a.retrieved = false := by
  by_cases hp : all_positional_retrieved s.positional_args = true
  · simp only [filterx_function_args_check, hp, if_true] at h
    rcases hf : find_unretrieved_named s.named_args with _ | m
    · rw [hf] at h
      cases h
    · rw [hf] at h
      injection h with hmn
      subst hmn
      exact find_unretrieved_named_eq_some s.named_args m hf
  · have hp' : all_positional_retrieved s.positional_args = false := by
      revert hp
      cases all_positional_retrieved s.positional_args <;> simp
    simp [filterx_function_args_check, hp'] at h

theorem markRetrievedAt_getElem :
    ∀ (l : List FilterXFunctionArg) (i : Nat), i < l.length →
      ∃ a, l[i]? = some a ∧ (markRetrievedAt l i)[i]? = some { a with retrieved := true }
  | [], i, h => absurd h (by simp)
  | a :: rest, 0, _ => ⟨a, by simp, by simp [markRetrievedAt]⟩
  | a :: rest, i + 1, h => by
      obtain ⟨b, hb, hb'⟩ := markRetrievedAt_getElem rest i (by simpa using h)
      exact ⟨b, by simpa using hb, by simpa [markRetrievedAt] using hb'⟩

theorem get_expr_marks (s : FilterXFunctionArgs) (i : Nat)
    (h : i < s.positional_args.length) :
    ∃ a, ((filterx_function_args_get_expr s i).2).positional_args[i]? = some a ∧
      a.retrieved = true := by
  obtain ⟨b, hb, hb'⟩ := markRetrievedAt_getElem s.positional_args i h
  have heq : filterx_function_args_get_expr s i =
      (some b.value, { s with positional_args := markRetrievedAt s.positional_args i }) := by
    simp only [filterx_function_args_get_expr, not_le.mpr h, if_false, hb]
  rw [heq]
  exact ⟨{ b with retrieved := true }, hb', rfl⟩

/-- C10: every retrieval operation of the container marks the targeted
argument retrieved whenever it exists — even when the operation yields no
value — and consequently a named argument probed by any retrieval API can
never later (after any further sequence of retrieval operations) cause an
unexpected-argument error from `check`. -/
theorem retrieval_marks_retrieved (s : FilterXFunctionArgs) (op : RetrievalOp) :
    (∀ i, opTarget op = .inl i → i < s.positional_args.length →
      ∃ a, ((applyOp s op).positional_args)[i]? = some a ∧ a.retrieved = true) ∧
    (∀ n, opTarget op = .inr n → allNamedMarked (applyOp s op) n) ∧
    (∀ n, opTarget op = .inr n → ∀ ops,
      filterx_function_args_check (applyOps (applyOp s op) ops) ≠ .unexpectedArg n) := by
  refine ⟨?_, ?_, ?_⟩
  · intro i hop hlt
    rw [applyOp_state, hop]
    exact get_expr_marks s i hlt
  · intro n hop
    exact applyOp_named_marks s n op hop
  · intro n hop ops hcheck
    have hm := applyOps_named_mono ops (applyOp s op) n (applyOp_named_marks s n op hop)
    obtain ⟨a, ham, har⟩ := check_unexpected_sound _ n hcheck
    have := hm (n, a) ham rfl
    rw [this] at har
    cases har

/-- Witness for `retrieval_marks_retrieved`: evaluating positional argument 0
marks it, and probing named argument `"k"` shields it from the
unexpected-argument error of a subsequent `check`. -/
theorem retrieval_marks_retrieved_witness :
    (∃ a, ((applyOp ⟨[⟨none, literalExpr .null, false⟩], []⟩
        (.getObject 0)).positional_args)[0]? = some a ∧ a.retrieved = true) ∧
    filterx_function_args_check
        (applyOps (applyOp ⟨[], [("k", ⟨some "k", literalExpr .null, false⟩)]⟩
          (.getNamedExpr "k")) []) ≠ .unexpectedArg "k" :=
  ⟨(retrieval_marks_retrieved ⟨[⟨none, literalExpr .null, false⟩], []⟩
      (.getObject 0)).1 0 rfl (by simp),
    (retrieval_marks_retrieved ⟨[], [("k", ⟨some "k", literalExpr .null, false⟩)]⟩
      (.getNamedExpr "k")).2.2 "k" rfl []⟩

theorem markRetrievedAt_append :
    ∀ (pre : List FilterXFunctionArg) (a : FilterXFunctionArg)
      (suf : List FilterXFunctionArg),
      markRetrievedAt (pre ++ a :: suf) pre.length =
        pre ++ { a with retrieved := true } :: suf
  | [], a, suf => rfl
  | b :: pre, a, suf => by
      simp [markRetrievedAt, markRetrievedAt_append pre a suf]

theorem get_expr_append_cons (pre : List FilterXFunctionArg) (a : FilterXFunctionArg)
    (suf : List FilterXFunctionArg) (named : List (String × FilterXFunctionArg)) :
    filterx_function_args_get_expr ⟨pre ++ a :: suf, named⟩ pre.length =
      (some a.value, ⟨pre ++ { a with retrieved := true } :: suf, named⟩) := by
  have hnle : ¬((pre ++ a :: suf).length ≤ pre.length) := by
    simp only [List.length_append, List.length_cons]
    omega
  have hget : (pre ++ a :: suf)[pre.length]? = some a := by
    rw [List.getElem?_append_right (le_refl pre.length)]
    simp
  simp only [filterx_function_args_get_expr, hnle, if_false, hget,
    markRetrievedAt_append]

theorem get_object_append_cons (pre : List FilterXFunctionArg) (a : FilterXFunctionArg)
    (suf : List FilterXFunctionArg) (named : List (String × FilterXFunctionArg)) :
    filterx_function_args_get_object ⟨pre ++ a :: suf, named⟩ pre.length =
      (filterx_expr_eval a.value, ⟨pre ++ { a with retrieved := true } :: suf, named⟩) := by
  simp [filterx_function_args_get_object, get_expr_append_cons]

theorem simple_eval_args_loop_success :
    ∀ (suf pre : List FilterXFunctionArg) (named : List (String × FilterXFunctionArg))
      (acc vs : List FilterXObject) (len : Nat),
      len = pre.length + suf.length →
      evalPositional suf = some vs →
      simple_eval_args_loop ⟨pre ++ suf, named⟩ pre.length len acc =
        (some (acc ++ vs), ⟨pre ++ markAll suf, named⟩)
  | [], pre, named, acc, vs, len, hlen, h => by
      injection h with h
      subst h
      have hnlt : ¬(pre.length < len) := by
        simp only [List.length_nil] at hlen
        omega
      rw [simple_eval_args_loop, if_neg hnlt]
      simp [markAll]
  | a :: suf', pre, named, acc, vs, len, hlen, h => by
      rcases he : filterx_expr_eval a.value with _ | v
      · simp [evalPositional, he] at h
      · rcases hr : evalPositional suf' with _ | vs'
        · simp [evalPositional, he, hr] at h
        · simp only [evalPositional, he, hr] at h
          injection h with h
          subst h
          have hlt : pre.length < len := by
            simp only [List.length_cons] at hlen
            omega
          rw [simple_eval_args_loop, if_pos hlt, get_object_append_cons, he]
          have ih := simple_eval_args_loop_success suf'
            (pre ++ [{ a with retrieved := true }]) named (acc ++ [v]) vs' len
            (by simp only [List.length_append, List.length_cons, List.length_nil] at hlen ⊢; omega) hr
          simp only [List.append_assoc, List.singleton_append, List.length_append,
            List.length_singleton] at ih ⊢
          exact ih

theorem simple_eval_args_loop_failure :
    ∀ (suf pre : List FilterXFunctionArg) (named : List (String × FilterXFunctionArg))
      (acc : List FilterXObject) (len : Nat),
      len = pre.length + suf.length →
      evalPositional suf = none →
      (simple_eval_args_loop ⟨pre ++ suf, named⟩ pre.length len acc).1 = none
  | [], pre, named, acc, len, hlen, h => by
      simp [evalPositional] at h
  | a :: suf', pre, named, acc, len, hlen, h => by
      have hlt : pre.length < len := by
        simp only [List.length_cons] at hlen
        omega
      rcases he : filterx_expr_eval a.value with _ | v
      · rw [simple_eval_args_loop, if_pos hlt, get_object_append_cons, he]
      · have hr : evalPositional suf' = none := by
          rcases hr : evalPositional suf' with _ | vs'
          · rfl
          · simp [evalPositional, he, hr] at h
        rw [simple_eval_args_loop, if_pos hlt, get_object_append_cons, he]
        have ih := simple_eval_args_loop_failure suf'
          (pre ++ [{ a with retrieved := true }]) named (acc ++ [v]) len
          (by simp only [List.length_append, List.length_cons, List.length_nil] at hlen ⊢; omega) hr
        simp only [List.append_assoc, List.singleton_append, List.length_append,
          List.length_singleton] at ih ⊢
        exact ih

theorem eval_args_success_shape (pos : List FilterXFunctionArg)
    (named : List (String × FilterXFunctionArg)) (dn : String)
    (vs : List FilterXObject) (h : evalPositional pos = some vs) :
    simple_function_eval_args ⟨pos, named⟩ dn =
      (match filterx_function_args_check ⟨markAll pos, named⟩ with
        | .ok => ⟨some vs, ⟨markAll pos, named⟩, 1, none, false⟩
        | .unexpectedArg n =>
            ⟨none, ⟨markAll pos, named⟩, 1, some (dn, unexpected_arg_message n), false⟩
        | .assertionFailed => ⟨none, ⟨markAll pos, named⟩, 1, none, true⟩) := by
  have hl := simple_eval_args_loop_success pos [] named [] vs pos.length (by simp) h
  simp only [List.nil_append, List.length_nil] at hl
  simp only [simple_function_eval_args, filterx_function_args_len]
  rw [hl]

theorem eval_args_failure_shape (pos : List FilterXFunctionArg)
    (named : List (String × FilterXFunctionArg)) (dn : String)
    (h : evalPositional pos = none) :
    (simple_function_eval_args ⟨pos, named⟩ dn).res = none ∧
    (simple_function_eval_args ⟨pos, named⟩ dn).check_calls = 0 := by
  have hl := simple_eval_args_loop_failure pos [] named [] pos.length (by simp) h
  simp only [List.nil_append, List.length_nil] at hl
  simp only [simple_function_eval_args, filterx_function_args_len]
  rcases hloop : simple_eval_args_loop ⟨pos, named⟩ 0 pos.length [] with ⟨res, args'⟩
  rw [hloop] at hl
  simp only at hl
  subst hl
  simp [hloop]

theorem simple_eval_protocol_aux (dn : String) (proto : SimpleProto)
    (pos : List FilterXFunctionArg) (named : List (String × FilterXFunctionArg))
    (hne : filterx_function_args_empty ⟨pos, named⟩ = false) :
    (evalPositional pos = none →
      (simple_eval ⟨dn, ⟨pos, named⟩, proto⟩).result = none ∧
      (simple_eval ⟨dn, ⟨pos, named⟩, proto⟩).proto_called_with = none ∧
      (simple_eval ⟨dn, ⟨pos, named⟩, proto⟩).check_calls = 0) ∧
    (∀ vs, evalPositional pos = some vs →
      (simple_eval ⟨dn, ⟨pos, named⟩, proto⟩).check_calls = 1 ∧
      (∀ n, filterx_function_args_check ⟨markAll pos, named⟩ = .unexpectedArg n →
        (simple_eval ⟨dn, ⟨pos, named⟩, proto⟩).pushed_error =
          some (dn, unexpected_arg_message n) ∧
        (simple_eval ⟨dn, ⟨pos, named⟩, proto⟩).result = none ∧
        (simple_eval ⟨dn, ⟨pos, named⟩, proto⟩).proto_called_with = none) ∧
      (filterx_function_args_check ⟨markAll pos, named⟩ = .ok →
        (simple_eval ⟨dn, ⟨pos, named⟩, proto⟩).proto_called_with = some (some vs) ∧
        (simple_eval ⟨dn, ⟨pos, named⟩, proto⟩).result = proto (some vs))) := by
  constructor
  · intro h
    obtain ⟨hres, hcalls⟩ := eval_args_failure_shape pos named dn h
    rcases hargs : simple_function_eval_args ⟨pos, named⟩ dn with ⟨res, args', cc, pe, asrt⟩
    rw [hargs] at hres hcalls
    simp only at hres hcalls
    subst hres
    subst hcalls
    simp [simple_eval, hne, hargs]
  · intro vs h
    have hshape := eval_args_success_shape pos named dn vs h
    rcases hcheck : filterx_function_args_check ⟨markAll pos, named⟩ with _ | n | _
    · rw [hcheck] at hshape
      refine ⟨by simp [simple_eval, hne, hshape], ?_, ?_⟩
      · intro n hn
        cases hn
      · intro hok
        cases hok
    · rw [hcheck] at hshape
      refine ⟨by simp [simple_eval, hne, hshape], ?_, ?_⟩
      · intro m hm
        injection hm with hmn
        subst hmn
        simp [simple_eval, hne, hshape]
      · intro hok
        cases hok
    · rw [hcheck] at hshape
      refine ⟨by simp [simple_eval, hne, hshape], ?_, ?_⟩
      · intro n hn
        cases hn
      · intro _
        simp [simple_eval, hne, hshape]

/-- C6: evaluating a simple callable with a non-empty container evaluates
every positional argument into an array fail-fast (on any evaluation failure
the evaluation aborts with no partial array and no native call, before
`check`); otherwise `check` runs, a check failure is pushed as an argument
error tagged with the callable's display name and terminates evaluation; only
then is the native function invoked with the evaluated array and its result
returned unchanged. -/
theorem simple_eval_protocol (dn : String) (proto : SimpleProto)
    (pos : List FilterXFunctionArg) (named : List (String × FilterXFunctionArg))
    (hne : filterx_function_args_empty ⟨pos, named⟩ = false) :
    (evalPositional pos = none →
      (simple_eval ⟨dn, ⟨pos, named⟩, proto⟩).result = none ∧
      (simple_eval ⟨dn, ⟨pos, named⟩, proto⟩).proto_called_with = none ∧
      (simple_eval ⟨dn, ⟨pos, named⟩, proto⟩).check_calls = 0) ∧
    (∀ vs, evalPositional pos = some vs →
      (simple_eval ⟨dn, ⟨pos, named⟩, proto⟩).check_calls = 1 ∧
      (∀ n, filterx_function_args_check ⟨markAll pos, named⟩ = .unexpectedArg n →
        (simple_eval ⟨dn, ⟨pos, named⟩, proto⟩).pushed_error =
          some (dn, unexpected_arg_message n) ∧
        (simple_eval ⟨dn, ⟨pos, named⟩, proto⟩).result = none ∧
        (simple_eval ⟨dn, ⟨pos, named⟩, proto⟩).proto_called_with = none) ∧
      (filterx_function_args_check ⟨markAll pos, named⟩ = .ok →
        (simple_eval ⟨dn, ⟨pos, named⟩, proto⟩).proto_called_with = some (some vs) ∧
        (simple_eval ⟨dn, ⟨pos, named⟩, proto⟩).result = proto (some vs))) :=
  simple_eval_protocol_aux dn proto pos named hne

/-- Witness for `simple_eval_protocol`: a one-argument callable evaluates its
literal argument, passes `check`, and the native function receives the
singleton array and determines the result. -/
theorem simple_eval_protocol_witness :
    (simple_eval ⟨"foo()", ⟨[⟨none, literalExpr (.str "hi"), false⟩], []⟩,
        fun _ => some (.str "out")⟩).proto_called_with = some (some [.str "hi"]) ∧
    (simple_eval ⟨"foo()", ⟨[⟨none, literalExpr (.str "hi"), false⟩], []⟩,
        fun _ => some (.str "out")⟩).result =
      (fun _ => some (FilterXObject.str "out")) (some [FilterXObject.str "hi"]) :=
  ((simple_eval_protocol "foo()" (fun _ => some (.str "out"))
      [⟨none, literalExpr (.str "hi"), false⟩] [] rfl).2 [.str "hi"] rfl).2.2 rfl

/-- Counterexample to C7 as stated: evaluating a simple callable whose
container is empty never invokes `check` — the check-call count is 0, not
exactly once. -/
theorem check_skipped_on_empty_counterexample :
    (simple_eval ⟨"foo()", ⟨[], []⟩, fun _ => some FilterXObject.null⟩).check_calls ≠ 1 := by
  have h : (simple_eval ⟨"foo()", ⟨[], []⟩,
      fun _ => some FilterXObject.null⟩).check_calls = 0 := rfl
  omega

/-- C7 (amended): a simple-callable evaluation invokes `check` exactly once —
after all positional argument reads, before producing its result — when the
container is non-empty and every positional argument evaluates successfully;
when the container is empty, or some positional evaluation fails, `check` is
not invoked at all. -/
theorem check_call_discipline (dn : String) (proto : SimpleProto)
    (pos : List FilterXFunctionArg) (named : List (String × FilterXFunctionArg)) :
    (filterx_function_args_empty ⟨pos, named⟩ = true →
      (simple_eval ⟨dn, ⟨pos, named⟩, proto⟩).check_calls = 0) ∧
    (filterx_function_args_empty ⟨pos, named⟩ = false →
      (∀ vs, evalPositional pos = some vs →
        (simple_eval ⟨dn, ⟨pos, named⟩, proto⟩).check_calls = 1) ∧
      (evalPositional pos = none →
        (simple_eval ⟨dn, ⟨pos, named⟩, proto⟩).check_calls = 0)) := by
  constructor
  · intro he
    simp [simple_eval, he]
  · intro hne
    constructor
    · intro vs h
      exact ((simple_eval_protocol_aux dn proto pos named hne).2 vs h).1
    · intro h
      exact ((simple_eval_protocol_aux dn proto pos named hne).1 h).2.2

/-- Witness for `check_call_discipline`: with a non-empty container whose
argument evaluates, `check` runs exactly once; with an empty container it
never runs. -/
theorem check_call_discipline_witness :
    (simple_eval ⟨"f()", ⟨[⟨none, literalExpr .null, false⟩], []⟩,
        fun _ => some FilterXObject.null⟩).check_calls = 1 ∧
    (simple_eval ⟨"g()", ⟨[], []⟩,
        fun _ => some FilterXObject.null⟩).check_calls = 0 :=
  ⟨((check_call_discipline "f()" (fun _ => some FilterXObject.null)
        [⟨none, literalExpr .null, false⟩] []).2 rfl).1 [FilterXObject.null] rfl,
    (check_call_discipline "g()" (fun _ => some FilterXObject.null) [] []).1 rfl⟩

/-- C4: ordinary-call resolution.  A name in the built-in simple-function
table resolves to a simple callable wrapping that built-in regardless of any
plugin registered under the same name in the same flavor; a name absent from
all built-in tables of the flavor but present in the plugin registry resolves
to a callable wrapping the plugin's constructed function; a name no tier
resolves yields the function-not-found error, which is set only when no more
specific error was already set. -/
theorem function_lookup_resolution (cfg : GlobalConfig) (function_name : String)
    (raw : List FilterXFunctionArg) (args : FilterXFunctionArgs)
    (hargs : filterx_function_args_new raw = .ok args) :
    (∀ f, filterx_builtin_simple_function_lookup cfg function_name = some f →
      filterx_function_lookup cfg function_name raw =
        (some (.simple (filterx_simple_function_new function_name args f)), none)) ∧
    (filterx_builtin_simple_function_lookup cfg function_name = none →
      filterx_builtin_function_ctor_lookup cfg function_name = none →
      (∀ p f, cfg_find_plugin_simple cfg function_name = some p →
        plugin_construct p = some f →
        filterx_function_lookup cfg function_name raw =
          (some (.simple (filterx_simple_function_new function_name args f)), none)) ∧
      (cfg_find_plugin_simple cfg function_name = none →
        ∀ p c, cfg_find_plugin_func cfg function_name = some p →
          plugin_construct p = some c → c.succeeds = true →
          filterx_function_lookup cfg function_name raw =
            (some (.fromCtor c.id function_name args), none))) ∧
    (filterx_builtin_simple_function_lookup cfg function_name = none →
      cfg_find_plugin_simple cfg function_name = none →
      filterx_builtin_function_ctor_lookup cfg function_name = none →
      cfg_find_plugin_func cfg function_name = none →
      filterx_function_lookup cfg function_name raw =
        (none, some ⟨.functionNotFound, "function not found"⟩)) ∧
    (filterx_builtin_simple_function_lookup cfg function_name = none →
      cfg_find_plugin_simple cfg function_name = none →
      ∀ c e, filterx_builtin_function_ctor_lookup cfg function_name = some c →
        c.succeeds = false → c.fail_error = some e →
        filterx_function_lookup cfg function_name raw = (none, some e)) := by
  refine ⟨?_, ?_, ?_, ?_⟩
  · intro f hf
    simp [filterx_function_lookup, hargs, lookup_simple_function, hf]
  · intro hb hc
    constructor
    · intro p f hp hpf
      simp [filterx_function_lookup, hargs, lookup_simple_function, hb, hp, hpf]
    · intro hps p c hp hpc hcs
      simp [filterx_function_lookup, hargs, lookup_simple_function, hb, hps,
        lookup_function, hc, hp, hpc, run_ctor, hcs]
  · intro hb hps hc hp
    simp [filterx_function_lookup, hargs, lookup_simple_function, hb, hps,
      lookup_function, hc, hp]
  · intro hb hps c e hc hcs hce
    simp [filterx_function_lookup, hargs, lookup_simple_function, hb, hps,
      lookup_function, hc, run_ctor, hcs, hce]

/-- Witness for `function_lookup_resolution`: `"foo"` is both a built-in
simple function and a registered plugin simple function; resolution picks the
built-in. -/
theorem function_lookup_resolution_witness :
    filterx_function_lookup
        ⟨[("foo", fun _ => some FilterXObject.null)], [],
          [("foo", ⟨some fun _ => some FilterXObject.other⟩)], []⟩ "foo" [] =
      (some (.simple (filterx_simple_function_new "foo" ⟨[], []⟩
        (fun _ => some FilterXObject.null))), none) :=
  (function_lookup_resolution
      ⟨[("foo", fun _ => some FilterXObject.null)], [],
        [("foo", ⟨some fun _ => some FilterXObject.other⟩)], []⟩ "foo" [] ⟨[], []⟩
      rfl).1 (fun _ => some FilterXObject.null) rfl

end FilterXSpec
